import Mathlib

/-!
Shallow embedding of the TAXII message codec of stix-rust: the four
stack-based XML event parsers (collection information, discovery,
subscription management, status message) and the subscription request
composer, together with theorems about the frozen specification claims.

The xml-rs tokenizer is abstracted: a document is a list of reader events
(start element with attributes, end element, characters, CDATA, a
tokenizer error, or an unhandled event kind such as whitespace), exactly
the cases the Rust source matches on.  MyError is modelled as its message
string.  Rust Vec push is list append on the right; the tag stack is a
Lean list whose head is the top of the Vec.
-/

/-- Reader events delivered by the XML event reader to the parse loops. -/
inductive XmlEvent where
  | startElement (name : String) (attributes : List (String × String))
  | endElement (name : String)
  | characters (data : String)
  | cdata (data : String)
  | readError (msg : String)
  | other
deriving Repr, DecidableEq

/-- Rust str::to_lowercase, modelled character-wise over the string's
characters. -/
def rust_to_lowercase (s : String) : String := String.mk (s.data.map Char.toLower)

/-- Outcome of a computation that can return a value, return an error, or
abort the process via a Rust panic. -/
inductive DOut (α : Type) where
  | ok (v : α)
  | err (msg : String)
  | panicked (msg : String)
deriving Repr, DecidableEq

namespace Collections

inductive CollectionType where
  | Unknown
  | DataFeed
deriving Repr, DecidableEq

def CollectionType.parse (v : String) : Except String CollectionType :=
  match v with
  | "DATA_FEED" => .ok .DataFeed
  | _ => .error ("could not parse: " ++ v)

inductive CollectionServiceType where
  | PollingService
  | SubscriptionService
  | ReceivingInboxService
deriving Repr, DecidableEq

structure CollectionService where
  collection_service_type : CollectionServiceType
  protocol_binding : String
  address : String
  message_bindings : List String
  content_bindings : List String
deriving Repr, DecidableEq

def CollectionService.new (t : CollectionServiceType) : CollectionService :=
  { collection_service_type := t
    protocol_binding := ""
    address := ""
    message_bindings := []
    content_bindings := [] }

structure Collection where
  collection_name : String
  collection_type : CollectionType
  available : Bool
  description : String
  collection_volume : String
  content_bindings : List String
  collection_services : List CollectionService
deriving Repr, DecidableEq

def Collection.new_empty : Collection :=
  { collection_name := ""
    collection_type := .Unknown
    available := false
    description := ""
    collection_volume := ""
    content_bindings := []
    collection_services := [] }

structure CollectionSet where
  collections : List Collection
deriving Repr, DecidableEq

inductive CollectionTags where
  | CollectionInformationResponse
  | Collection
  | Description
  | CollectionVolume
  | ContentBinding
  | MessageBinding
  | Address
  | ProtocolBinding
  | PollingService
  | SubscriptionService
  | ReceivingInboxService
deriving Repr, DecidableEq

def CollectionTags.parse (tag : String) : Except String CollectionTags :=
  match tag with
  | "Collection_Information_Response" => .ok .CollectionInformationResponse
  | "Collection" => .ok .Collection
  | "Description" => .ok .Description
  | "Collection_Volume" => .ok .CollectionVolume
  | "Content_Binding" => .ok .ContentBinding
  | "Message_Binding" => .ok .MessageBinding
  | "Address" => .ok .Address
  | "Protocol_Binding" => .ok .ProtocolBinding
  | "Polling_Service" => .ok .PollingService
  | "Subscription_Service" => .ok .SubscriptionService
  | "Receiving_Inbox_Service" => .ok .ReceivingInboxService
  | _ => .error ("could not parse tag: " ++ tag)

def CollectionTags.matches_expected_depth : CollectionTags → Nat → Bool
  | .CollectionInformationResponse, depth => depth == 0
  | .Collection, depth => depth == 1
  | .Description, depth => depth == 2
  | .CollectionVolume, depth => depth == 2
  | .ContentBinding, depth => depth == 2 || depth == 3
  | .MessageBinding, depth => depth == 3
  | .Address, depth => depth == 3
  | .ProtocolBinding, depth => depth == 3
  | .PollingService, depth => depth == 2
  | .SubscriptionService, depth => depth == 2
  | .ReceivingInboxService, depth => depth == 2

def CollectionTags.to_str : CollectionTags → String
  | .CollectionInformationResponse => "Collection_Information_Response"
  | .Collection => "Collection"
  | .Description => "Description"
  | .CollectionVolume => "Collection_Volume"
  | .ContentBinding => "Content_Binding"
  | .MessageBinding => "Message_Binding"
  | .Address => "Address"
  | .ProtocolBinding => "Protocol_Binding"
  | .PollingService => "Polling_Service"
  | .SubscriptionService => "Subscription_Service"
  | .ReceivingInboxService => "Receiving_DataFeed_Service"

/-- Mutable locals of parse_collection_information_response. -/
structure State where
  tag_stack : List CollectionTags
  collection_set : List Collection
  cur_collection : Collection
  cur_service : Option CollectionService
  last_value : String
deriving Repr, DecidableEq

/-- Attribute loop of the Collection start-element arm. -/
def collectionAttrsLoop : Collection → List (String × String) → Except String Collection
  | c, [] => .ok c
  | c, (n, v) :: rest =>
    match n with
    | "collection_name" => collectionAttrsLoop { c with collection_name := v } rest
    | "collection_type" =>
      match CollectionType.parse v with
      | .ok t => collectionAttrsLoop { c with collection_type := t } rest
      | .error e => .error e
    | "available" => collectionAttrsLoop { c with available := rust_to_lowercase v == "true" } rest
    | _ => .error ("unrecogized attribute: " ++ n)

/-- Attribute loop of the Content_Binding start-element arm: binding ids go
to the open service when one exists, otherwise to the current collection. -/
def contentBindingAttrsLoop : State → List (String × String) → Except String State
  | st, [] => .ok st
  | st, (n, v) :: rest =>
    match n with
    | "binding_id" =>
      match st.cur_service with
      | some s =>
        contentBindingAttrsLoop
          { st with cur_service := some { s with content_bindings := s.content_bindings ++ [v] } } rest
      | none =>
        contentBindingAttrsLoop
          { st with cur_collection :=
              { st.cur_collection with content_bindings := st.cur_collection.content_bindings ++ [v] } } rest
    | _ => .error ("unrecogized attribute: " ++ n)

/-- One iteration of the event loop of parse_collection_information_response. -/
def step (st : State) : XmlEvent → Except String State
  | .startElement name attrs =>
    match CollectionTags.parse name with
    | .error e => .error e
    | .ok tag =>
      if tag.matches_expected_depth st.tag_stack.length then
        let st1 : State := { st with tag_stack := tag :: st.tag_stack }
        match tag with
        | .Collection =>
          match collectionAttrsLoop st1.cur_collection attrs with
          | .ok c => .ok { st1 with cur_collection := c }
          | .error e => .error e
        | .ContentBinding => contentBindingAttrsLoop st1 attrs
        | .PollingService =>
          .ok { st1 with cur_service := some (CollectionService.new .PollingService) }
        | .SubscriptionService =>
          .ok { st1 with cur_service := some (CollectionService.new .SubscriptionService) }
        | .ReceivingInboxService =>
          .ok { st1 with cur_service := some (CollectionService.new .ReceivingInboxService) }
        | _ => .ok st1
      else
        let depth := st.tag_stack.length
        .error ("tag at unexpected depth of " ++ toString depth ++ ": " ++ name)
  | .endElement name =>
    match CollectionTags.parse name with
    | .error e => .error e
    | .ok end_tag =>
      match st.tag_stack with
      | [] => .error "malformed XML response"
      | t :: rest =>
        if t = end_tag then
          let st1 : State := { st with tag_stack := rest }
          match end_tag with
          | .CollectionInformationResponse => .ok st1
          | .Collection =>
            .ok { st1 with collection_set := st1.collection_set ++ [st1.cur_collection],
                           cur_collection := Collection.new_empty }
          | .Description =>
            .ok { st1 with cur_collection :=
                    { st1.cur_collection with description := st1.last_value } }
          | .CollectionVolume =>
            .ok { st1 with cur_collection :=
                    { st1.cur_collection with collection_volume := st1.last_value } }
          | .ContentBinding => .ok st1
          | .MessageBinding =>
            match st1.cur_service with
            | some v =>
              .ok { st1 with cur_service := some { v with message_bindings := v.message_bindings ++ [st1.last_value] } }
            | none => .error "unexpected Address tag"
          | .Address =>
            match st1.cur_service with
            | some v => .ok { st1 with cur_service := some { v with address := st1.last_value } }
            | none => .error "unexpected Address tag"
          | .ProtocolBinding =>
            match st1.cur_service with
            | some v => .ok { st1 with cur_service := some { v with protocol_binding := st1.last_value } }
            | none => .error "unexpected Protocol_Binding tag"
          | .PollingService | .SubscriptionService | .ReceivingInboxService =>
            match st1.cur_service with
            | some v =>
              let c2 := { st1.cur_collection with
                            collection_services := st1.cur_collection.collection_services ++ [v] }
              .ok { st1 with cur_collection := c2, cur_service := none }
            | none => .error "unexpected end tag for service"
        else .error "malformed XML response"
  | .characters data => .ok { st with last_value := data }
  | .cdata _ => .ok st
  | .readError msg => .error msg
  | .other => .ok st

def runEvents : State → List XmlEvent → Except String State
  | st, [] => .ok st
  | st, e :: rest =>
    match step st e with
    | .ok st2 => runEvents st2 rest
    | .error msg => .error msg

def initState : State :=
  { tag_stack := []
    collection_set := []
    cur_collection := Collection.new_empty
    cur_service := none
    last_value := "" }

def parse_collection_information_response (doc : List XmlEvent) : Except String CollectionSet :=
  match runEvents initState doc with
  | .ok st => .ok { collections := st.collection_set }
  | .error e => .error e

end Collections

namespace Services

inductive ServiceType where
  | Undefined
  | CollectionManagement
  | Discovery
  | Inbox
  | Poll
deriving Repr, DecidableEq

def ServiceType.parse (v : String) : Except String ServiceType :=
  match v with
  | "COLLECTION_MANAGEMENT" => .ok .CollectionManagement
  | "DISCOVERY" => .ok .Discovery
  | "INBOX" => .ok .Inbox
  | "POLL" => .ok .Poll
  | _ => .error ("could not parse: " ++ v)

structure ServiceInstance where
  service_type : ServiceType
  service_version : String
  available : Bool
  protocol_binding : String
  address : String
  message_bindings : List String
  content_bindings : List String
  message : Option String
deriving Repr, DecidableEq

def ServiceInstance.new_empty : ServiceInstance :=
  { service_type := .Undefined
    service_version := ""
    available := false
    protocol_binding := ""
    address := ""
    message_bindings := []
    content_bindings := []
    message := none }

structure ServiceSet where
  services : List ServiceInstance
deriving Repr, DecidableEq

inductive InTag where
  | DiscoveryResponse
  | ServiceInstance
  | ProtocolBinding
  | Address
  | MessageBinding
  | ContentBinding
  | Message
deriving Repr, DecidableEq

/-- The end-element name each stack entry of the discovery parser is
checked against when it is popped. -/
def InTag.tag_name : InTag → String
  | .DiscoveryResponse => "Discovery_Response"
  | .ServiceInstance => "Service_Instance"
  | .ProtocolBinding => "Protocol_Binding"
  | .Address => "Address"
  | .MessageBinding => "Message_Binding"
  | .ContentBinding => "Content_Binding"
  | .Message => "Message"

/-- Mutable locals of parse_discovery_response. -/
structure State where
  tag_stack : List InTag
  services : List ServiceInstance
  cur_service : ServiceInstance
  last_value : String
deriving Repr, DecidableEq

/-- Attribute loop of the Service_Instance start-element arm.  An
unparsable service_type panics (services.rs line 115: a panic with a
TODO to return the error instead). -/
def serviceInstanceAttrsLoop : ServiceInstance → List (String × String) → DOut ServiceInstance
  | s, [] => .ok s
  | s, (n, v) :: rest =>
    match n with
    | "service_type" =>
      match ServiceType.parse v with
      | .ok t => serviceInstanceAttrsLoop { s with service_type := t } rest
      | .error e => .panicked e
    | "service_version" => serviceInstanceAttrsLoop { s with service_version := v } rest
    | "available" => serviceInstanceAttrsLoop { s with available := rust_to_lowercase v == "true" } rest
    | _ => .err ("unrecogized attribute: " ++ n)

/-- One iteration of the event loop of parse_discovery_response. -/
def step (st : State) : XmlEvent → DOut State
  | .startElement name attrs =>
    match name with
    | "Discovery_Response" =>
      if st.tag_stack.length != 0 then
        .err "unexpected tag preceeding Discovery_Response"
      else
        .ok { st with tag_stack := .DiscoveryResponse :: st.tag_stack }
    | "Service_Instance" =>
      if st.tag_stack.length != 1 then
        .err "unexpected tag depth for Service_Instance"
      else
        let st1 : State := { st with tag_stack := .ServiceInstance :: st.tag_stack }
        match serviceInstanceAttrsLoop st1.cur_service attrs with
        | .ok s => .ok { st1 with cur_service := s }
        | .err e => .err e
        | .panicked e => .panicked e
    | "Protocol_Binding" =>
      if st.tag_stack.length != 2 then
        .err "unexpected tag depth for Protocol_Binding"
      else
        .ok { st with tag_stack := .ProtocolBinding :: st.tag_stack }
    | "Address" =>
      if st.tag_stack.length != 2 then
        .err "unexpected tag depth for Address"
      else
        .ok { st with tag_stack := .Address :: st.tag_stack }
    | "Message_Binding" =>
      if st.tag_stack.length != 2 then
        .err "unexpected tag depth for Message_Binding"
      else
        .ok { st with tag_stack := .MessageBinding :: st.tag_stack }
    | "Content_Binding" =>
      if st.tag_stack.length != 2 then
        .err "unexpected tag depth for Content_Binding"
      else
        .ok { st with tag_stack := .ContentBinding :: st.tag_stack }
    | "Message" =>
      if st.tag_stack.length != 2 then
        .err "unexpected tag depth for Message"
      else
        .ok { st with tag_stack := .Message :: st.tag_stack }
    | tag => .err ("unexpected XML tag: " ++ tag)
  | .endElement name =>
    match st.tag_stack with
    | [] => .err ("unexpected end tag: " ++ name)
    | t :: rest =>
      if name = t.tag_name then
        let st1 : State := { st with tag_stack := rest }
        match t with
        | .DiscoveryResponse => .ok st1
        | .ServiceInstance =>
          .ok { st1 with services := st1.services ++ [st1.cur_service],
                         cur_service := ServiceInstance.new_empty }
        | .ProtocolBinding =>
          .ok { st1 with cur_service := { st1.cur_service with protocol_binding := st1.last_value } }
        | .Address =>
          .ok { st1 with cur_service := { st1.cur_service with address := st1.last_value } }
        | .MessageBinding =>
          let s2 := { st1.cur_service with
                        message_bindings := st1.cur_service.message_bindings ++ [st1.last_value] }
          .ok { st1 with cur_service := s2 }
        | .ContentBinding =>
          let s2 := { st1.cur_service with
                        content_bindings := st1.cur_service.content_bindings ++ [st1.last_value] }
          .ok { st1 with cur_service := s2 }
        | .Message =>
          .ok { st1 with cur_service := { st1.cur_service with message := some st1.last_value } }
      else .err "malformed XML response"
  | .characters data => .ok { st with last_value := data }
  | .cdata data => .ok { st with last_value := data }
  | .readError msg => .err msg
  | .other => .ok st

def runEvents : State → List XmlEvent → DOut State
  | st, [] => .ok st
  | st, e :: rest =>
    match step st e with
    | .ok st2 => runEvents st2 rest
    | .err msg => .err msg
    | .panicked msg => .panicked msg

def initState : State :=
  { tag_stack := []
    services := []
    cur_service := ServiceInstance.new_empty
    last_value := "" }

def parse_discovery_response (doc : List XmlEvent) : DOut ServiceSet :=
  match runEvents initState doc with
  | .ok st => .ok { services := st.services }
  | .err e => .err e
  | .panicked e => .panicked e

end Services

namespace StatusMessages

structure StatusMessage where
  message_id : String
  in_response_to : String
  status_type : String
  message : Option String
deriving Repr, DecidableEq

def StatusMessage.new_empty : StatusMessage :=
  { message_id := ""
    in_response_to := ""
    status_type := ""
    message := none }

inductive InTag where
  | StatusMessage
  | Message
deriving Repr, DecidableEq

/-- The end-element name each stack entry of the status-message parser is
checked against when it is popped. -/
def InTag.tag_name : InTag → String
  | .StatusMessage => "Status_Message"
  | .Message => "Message"

/-- Mutable locals of parse_status_message. -/
structure State where
  tag_stack : List InTag
  status_message : StatusMessage
  last_value : String
deriving Repr, DecidableEq

/-- Attribute loop of the Status_Message start-element arm. -/
def statusMessageAttrsLoop : StatusMessage → List (String × String) → Except String StatusMessage
  | m, [] => .ok m
  | m, (n, v) :: rest =>
    match n with
    | "message_id" => statusMessageAttrsLoop { m with message_id := v } rest
    | "in_response_to" => statusMessageAttrsLoop { m with in_response_to := v } rest
    | "status_type" => statusMessageAttrsLoop { m with status_type := v } rest
    | _ => .error ("unrecogized attribute: " ++ n)

/-- One iteration of the event loop of parse_status_message. -/
def step (st : State) : XmlEvent → Except String State
  | .startElement name attrs =>
    match name with
    | "Status_Message" =>
      if st.tag_stack.length != 0 then
        .error "unexpected tag preceeding Status_Message"
      else
        let st1 : State := { st with tag_stack := .StatusMessage :: st.tag_stack }
        match statusMessageAttrsLoop st1.status_message attrs with
        | .ok m => .ok { st1 with status_message := m }
        | .error e => .error e
    | "Message" =>
      if st.tag_stack.length != 1 then
        .error "unexpected tag depth for Message"
      else
        .ok { st with tag_stack := .Message :: st.tag_stack }
    | tag => .error ("unexpected XML tag: " ++ tag)
  | .endElement name =>
    match st.tag_stack with
    | [] => .error ("unexpected end tag: " ++ name)
    | t :: rest =>
      if name = t.tag_name then
        let st1 : State := { st with tag_stack := rest }
        match t with
        | .StatusMessage => .ok st1
        | .Message =>
          .ok { st1 with status_message := { st1.status_message with message := some st1.last_value } }
      else .error "malformed XML response"
  | .characters data => .ok { st with last_value := data }
  | .cdata data => .ok { st with last_value := data }
  | .readError msg => .error msg
  | .other => .ok st

def runEvents : State → List XmlEvent → Except String State
  | st, [] => .ok st
  | st, e :: rest =>
    match step st e with
    | .ok st2 => runEvents st2 rest
    | .error msg => .error msg

def initState : State :=
  { tag_stack := []
    status_message := StatusMessage.new_empty
    last_value := "" }

def parse_status_message (doc : List XmlEvent) : Except String StatusMessage :=
  match runEvents initState doc with
  | .ok st => .ok st.status_message
  | .error e => .error e

end StatusMessages

inductive Version where
  | V10
  | V11
  | V21
deriving Repr, DecidableEq

def NAMESPACE_10 : String := "http://taxii.mitre.org/messages/taxii_xml_binding-1"

def NAMESPACE_11 : String := "http://taxii.mitre.org/messages/taxii_xml_binding-1.1"

/-- Version.xml_namespace; the V21 arm panics in the source. -/
def Version.xml_namespace : Version → DOut String
  | .V10 => .ok NAMESPACE_10
  | .V11 => .ok NAMESPACE_11
  | .V21 => .panicked "TODO: version does not support XML"

/-- Events recorded by the streaming XML writer backing the request
composer. -/
inductive WXmlEvent where
  | startElement (name : String) (attrs : List (String × String))
  | characters (data : String)
  | endElement
deriving Repr, DecidableEq

/-- write_xml_tag_with_data: a start tag, its character data, and the
matching end tag. -/
def write_xml_tag_with_data (tag data : String) : List WXmlEvent :=
  [.startElement tag [], .characters data, .endElement]

namespace Subscriptions

inductive SubscribeAction where
  | Subscribe
  | Unsubscribe
  | Pause
  | Resume
  | Status
deriving Repr, DecidableEq

def SubscribeAction.to_str : SubscribeAction → String
  | .Subscribe => "SUBSCRIBE"
  | .Unsubscribe => "UNSUBSCRIBE"
  | .Pause => "PAUSE"
  | .Resume => "RESUME"
  | .Status => "STATUS"

inductive ResponseType where
  | Full
  | CountOnly
deriving Repr, DecidableEq

def ResponseType.parse (v : String) : Except String ResponseType :=
  match v with
  | "FULL" => .ok .Full
  | "COUNT_ONLY" => .ok .CountOnly
  | _ => .error ("could not parse response type: " ++ v)

def ResponseType.to_str : ResponseType → String
  | .Full => "FULL"
  | .CountOnly => "COUNT_ONLY"

inductive SubscriptionManagementResponseTag where
  | SubscriptionManagementResponse
  | Subscription
  | SubscriptionID
  | SubscriptionParameters
  | ResponseType
  | PollInstance
  | ProtocolBinding
  | Address
  | MessageBinding
deriving Repr, DecidableEq

def SubscriptionManagementResponseTag.parse (tag : String) :
    Except String SubscriptionManagementResponseTag :=
  match tag with
  | "Subscription_Management_Response" => .ok .SubscriptionManagementResponse
  | "Subscription" => .ok .Subscription
  | "Subscription_ID" => .ok .SubscriptionID
  | "Subscription_Parameters" => .ok .SubscriptionParameters
  | "Response_Type" => .ok .ResponseType
  | "Poll_Instance" => .ok .PollInstance
  | "Protocol_Binding" => .ok .ProtocolBinding
  | "Address" => .ok .Address
  | "Message_Binding" => .ok .MessageBinding
  | _ => .error ("could not parse tag: " ++ tag)

def SubscriptionManagementResponseTag.matches_expected_depth :
    SubscriptionManagementResponseTag → Nat → Bool
  | .SubscriptionManagementResponse, depth => depth == 0
  | .Subscription, depth => depth == 1
  | .SubscriptionID, depth => depth == 2
  | .SubscriptionParameters, depth => depth == 2
  | .ResponseType, depth => depth == 3
  | .PollInstance, depth => depth == 2
  | .ProtocolBinding, depth => depth == 3
  | .Address, depth => depth == 3
  | .MessageBinding, depth => depth == 3

def SubscriptionManagementResponseTag.to_str : SubscriptionManagementResponseTag → String
  | .SubscriptionManagementResponse => "Subscription_Management_Response"
  | .Subscription => "Subscription"
  | .SubscriptionID => "Subscription_ID"
  | .SubscriptionParameters => "Subscription_Parameters"
  | .ResponseType => "Response_Type"
  | .PollInstance => "Poll_Instance"
  | .ProtocolBinding => "Protocol_Binding"
  | .Address => "Address"
  | .MessageBinding => "Message_Binding"

structure PollInstance where
  protocol_binding : String
  address : String
  message_bindings : List String
deriving Repr, DecidableEq

def PollInstance.new_empty : PollInstance :=
  { protocol_binding := ""
    address := ""
    message_bindings := [] }

inductive SubscriptionStatus where
  | Active
  | Paused
  | Unsubscribed
deriving Repr, DecidableEq

def SubscriptionStatus.parse (v : String) : Except String SubscriptionStatus :=
  match v with
  | "ACTIVE" => .ok .Active
  | "PAUSED" => .ok .Paused
  | "UNSUBSCRIBED" => .ok .Unsubscribed
  | _ => .error ("could not parse subscription status: " ++ v)

structure Subscription where
  status : SubscriptionStatus
  id : String
  response_type : ResponseType
  poll_instances : List PollInstance
  collection_name : String
deriving Repr, DecidableEq

def Subscription.new_empty : Subscription :=
  { status := .Active
    id := ""
    response_type := .Full
    poll_instances := []
    collection_name := "" }

structure SubscriptionResponse where
  message_id : String
  in_response_to : String
  subscription : Subscription
deriving Repr, DecidableEq

def SubscriptionResponse.new_empty : SubscriptionResponse :=
  { message_id := ""
    in_response_to := ""
    subscription := Subscription.new_empty }

/-- Mutable locals of parse_subscription_management_response. -/
structure State where
  tag_stack : List SubscriptionManagementResponseTag
  subscription_response : SubscriptionResponse
  cur_poll_instance : Option PollInstance
  last_value : String
deriving Repr, DecidableEq

/-- Attribute loop of the Subscription_Management_Response root
start-element arm. -/
def rootAttrsLoop : SubscriptionResponse → List (String × String) → Except String SubscriptionResponse
  | r, [] => .ok r
  | r, (n, v) :: rest =>
    match n with
    | "message_id" => rootAttrsLoop { r with message_id := v } rest
    | "in_response_to" => rootAttrsLoop { r with in_response_to := v } rest
    | "collection_name" =>
      rootAttrsLoop { r with subscription := { r.subscription with collection_name := v } } rest
    | "xmlns:taxii" | "xmlns:taxii_11" | "xmlns:tdq" => rootAttrsLoop r rest
    | _ => .error ("unrecogized attribute: " ++ n)

/-- Attribute loop of the Subscription start-element arm. -/
def subscriptionAttrsLoop : SubscriptionResponse → List (String × String) → Except String SubscriptionResponse
  | r, [] => .ok r
  | r, (n, v) :: rest =>
    match n with
    | "status" =>
      match SubscriptionStatus.parse v with
      | .ok status =>
        subscriptionAttrsLoop { r with subscription := { r.subscription with status := status } } rest
      | .error e => .error e
    | _ => .error ("unrecogized attribute: " ++ n)

/-- One iteration of the event loop of parse_subscription_management_response. -/
def step (st : State) : XmlEvent → Except String State
  | .startElement name attrs =>
    match SubscriptionManagementResponseTag.parse name with
    | .error e => .error e
    | .ok tag =>
      if tag.matches_expected_depth st.tag_stack.length then
        let st1 : State := { st with tag_stack := tag :: st.tag_stack }
        match tag with
        | .SubscriptionManagementResponse =>
          match rootAttrsLoop st1.subscription_response attrs with
          | .ok r => .ok { st1 with subscription_response := r }
          | .error e => .error e
        | .Subscription =>
          match subscriptionAttrsLoop st1.subscription_response attrs with
          | .ok r => .ok { st1 with subscription_response := r }
          | .error e => .error e
        | .PollInstance => .ok { st1 with cur_poll_instance := some PollInstance.new_empty }
        | _ => .ok st1
      else
        let depth := st.tag_stack.length
        .error ("tag at unexpected depth of " ++ toString depth ++ " expected: " ++ name)
  | .endElement name =>
    match SubscriptionManagementResponseTag.parse name with
    | .error e => .error e
    | .ok end_tag =>
      match st.tag_stack with
      | [] => .error "malformed XML response"
      | t :: rest =>
        if t = end_tag then
          let st1 : State := { st with tag_stack := rest }
          match end_tag with
          | .SubscriptionID =>
            let sub := { st1.subscription_response.subscription with id := st1.last_value }
            .ok { st1 with subscription_response := { st1.subscription_response with subscription := sub } }
          | .ResponseType =>
            match ResponseType.parse st1.last_value with
            | .ok rt =>
              let sub := { st1.subscription_response.subscription with response_type := rt }
              .ok { st1 with subscription_response := { st1.subscription_response with subscription := sub } }
            | .error e => .error e
          | .PollInstance =>
            match st1.cur_poll_instance with
            | some poll_instance =>
              let sub := { st1.subscription_response.subscription with
                             poll_instances := st1.subscription_response.subscription.poll_instances ++ [poll_instance] }
              .ok { st1 with subscription_response := { st1.subscription_response with subscription := sub } }
            | none => .error "unexpected end tag for Poll_Instance"
          | .ProtocolBinding =>
            match st1.cur_poll_instance with
            | some v => .ok { st1 with cur_poll_instance := some { v with protocol_binding := st1.last_value } }
            | none => .error "unexpected Protocol_Binding tag"
          | .Address =>
            match st1.cur_poll_instance with
            | some v => .ok { st1 with cur_poll_instance := some { v with address := st1.last_value } }
            | none => .error "unexpected Address tag"
          | .MessageBinding =>
            match st1.cur_poll_instance with
            | some v =>
              .ok { st1 with cur_poll_instance := some { v with message_bindings := v.message_bindings ++ [st1.last_value] } }
            | none => .error "unexpected Address tag"
          | _ => .ok st1
        else .error "malformed XML response"
  | .characters data => .ok { st with last_value := data }
  | .cdata _ => .ok st
  | .readError msg => .error msg
  | .other => .ok st

def runEvents : State → List XmlEvent → Except String State
  | st, [] => .ok st
  | st, e :: rest =>
    match step st e with
    | .ok st2 => runEvents st2 rest
    | .error msg => .error msg

def initState : State :=
  { tag_stack := []
    subscription_response := SubscriptionResponse.new_empty
    cur_poll_instance := none
    last_value := "" }

def parse_subscription_management_response (doc : List XmlEvent) : Except String SubscriptionResponse :=
  match runEvents initState doc with
  | .ok st => .ok st.subscription_response
  | .error e => .error e

structure ContentBinding where
  binding_id : String
  subtype_id : Option String
deriving Repr, DecidableEq

structure SubscriptionParameters where
  reponse_type : ResponseType
  content_bindings : List ContentBinding
  query : Option String
  query_format_id : Option String
deriving Repr, DecidableEq

structure PushParameters where
  protocol_binding : String
  address : String
  message_binding : String
deriving Repr, DecidableEq

/-- Writer events of one Content_Binding child (with optional Subtype)
inside Subscription_Parameters. -/
def contentBindingEvents (cb : ContentBinding) : List WXmlEvent :=
  [.startElement "taxii_11:Content_Binding" [("binding_id", cb.binding_id)]] ++
  (match cb.subtype_id with
   | some subtype_id => [.startElement "taxii_11:Subtype" [("binding_id", subtype_id)], .endElement]
   | none => []) ++
  [.endElement]

/-- Writer events of the optional Query child (with optional format_id)
inside Subscription_Parameters. -/
def queryEvents (sp : SubscriptionParameters) : List WXmlEvent :=
  match sp.query with
  | some query =>
    (match sp.query_format_id with
     | some query_format_id => [.startElement "taxii_11:Query" [("format_id", query_format_id)]]
     | none => [.startElement "taxii_11:Query" []]) ++
    [.characters query, .endElement]
  | none => []

/-- Writer events of the Subscription_Parameters block. -/
def subscriptionParametersEvents (sp : SubscriptionParameters) : List WXmlEvent :=
  [.startElement "taxii_11:Subscription_Parameters" []] ++
  write_xml_tag_with_data "taxii_11:Response_Type" sp.reponse_type.to_str ++
  (sp.content_bindings.map contentBindingEvents).flatten ++
  queryEvents sp ++
  [.endElement]

/-- Writer events of the Push_Parameters block. -/
def pushParametersEvents (pp : PushParameters) : List WXmlEvent :=
  [.startElement "taxii_11:Push_Parameters" []] ++
  write_xml_tag_with_data "taxii_11:Protocol_Binding" pp.protocol_binding ++
  write_xml_tag_with_data "taxii_11:Address" pp.address ++
  write_xml_tag_with_data "taxii_11:Message_Binding" pp.message_binding ++
  [.endElement]

/-- create_subscribe_request_body.  The random message id produced by
ver.message_id() is injected as the msg_id argument; the streaming writer
is modelled as the list of events written (the emitted namespace binding
appears as a first root attribute).  A version whose xml_namespace call
panics (V21) makes the whole call panic, as in the source. -/
def create_subscribe_request_body (ver : Version) (msg_id : String)
    (action : SubscribeAction) (collection_name : String)
    (subscription_id : Option String)
    (subscription_parameters : Option SubscriptionParameters)
    (push_parameters : Option PushParameters) : DOut (List WXmlEvent) :=
  match ver.xml_namespace with
  | .err e => .err e
  | .panicked e => .panicked e
  | .ok ns =>
    let root : List WXmlEvent :=
      [.startElement "taxii_11:Subscription_Management_Request"
         [("xmlns:taxii_11", ns), ("action", action.to_str), ("message_id", msg_id),
          ("collection_name", collection_name)]]
    let sub_id_events : List WXmlEvent :=
      if action ≠ SubscribeAction.Subscribe then
        match subscription_id with
        | some id => write_xml_tag_with_data "taxii_11:Subscription_ID" id
        | none => []
      else []
    if action = SubscribeAction.Subscribe ∧ subscription_id.isSome then
      .err "unexpected subscription ID provided with subscribe action"
    else
      let sp_events : List WXmlEvent :=
        if action = SubscribeAction.Subscribe then
          match subscription_parameters with
          | some sp => subscriptionParametersEvents sp
          | none => []
        else []
      let pp_events : List WXmlEvent :=
        if action = SubscribeAction.Subscribe then
          match push_parameters with
          | some pp => pushParametersEvents pp
          | none => []
        else []
      .ok (root ++ sub_id_events ++ sp_events ++ pp_events ++ [.endElement])

end Subscriptions

example :
    Collections.parse_collection_information_response
      [.startElement "Collection_Information_Response" [],
       .startElement "Collection" [("collection_name", "c1"), ("collection_type", "DATA_FEED"), ("available", "TRUE")],
       .startElement "Description" [],
       .characters "desc",
       .endElement "Description",
       .startElement "Polling_Service" [],
       .startElement "Address" [],
       .characters "addr",
       .endElement "Address",
       .endElement "Polling_Service",
       .endElement "Collection",
       .endElement "Collection_Information_Response"] =
    .ok { collections := [{ collection_name := "c1", collection_type := .DataFeed,
                            available := true, description := "desc", collection_volume := "",
                            content_bindings := [],
                            collection_services := [{ collection_service_type := .PollingService,
                                                      protocol_binding := "", address := "addr",
                                                      message_bindings := [], content_bindings := [] }] }] } := by
  rfl

/-! Helper lemmas: each parse loop processes a concatenation of event
lists sequentially, and an error step aborts the run. -/

theorem coll_runEvents_append (st : Collections.State) (l1 l2 : List XmlEvent) :
    Collections.runEvents st (l1 ++ l2) =
      match Collections.runEvents st l1 with
      | .ok st2 => Collections.runEvents st2 l2
      | .error e => .error e := by
  induction l1 generalizing st with
  | nil => simp [Collections.runEvents]
  | cons e rest ih =>
    simp only [List.cons_append, Collections.runEvents]
    cases Collections.step st e <;> simp [ih]

theorem disc_runEvents_append (st : Services.State) (l1 l2 : List XmlEvent) :
    Services.runEvents st (l1 ++ l2) =
      match Services.runEvents st l1 with
      | .ok st2 => Services.runEvents st2 l2
      | .err e => .err e
      | .panicked e => .panicked e := by
  induction l1 generalizing st with
  | nil => simp [Services.runEvents]
  | cons e rest ih =>
    simp only [List.cons_append, Services.runEvents]
    cases Services.step st e <;> simp [ih]

theorem status_runEvents_append (st : StatusMessages.State) (l1 l2 : List XmlEvent) :
    StatusMessages.runEvents st (l1 ++ l2) =
      match StatusMessages.runEvents st l1 with
      | .ok st2 => StatusMessages.runEvents st2 l2
      | .error e => .error e := by
  induction l1 generalizing st with
  | nil => simp [StatusMessages.runEvents]
  | cons e rest ih =>
    simp only [List.cons_append, StatusMessages.runEvents]
    cases StatusMessages.step st e <;> simp [ih]

theorem sub_runEvents_append (st : Subscriptions.State) (l1 l2 : List XmlEvent) :
    Subscriptions.runEvents st (l1 ++ l2) =
      match Subscriptions.runEvents st l1 with
      | .ok st2 => Subscriptions.runEvents st2 l2
      | .error e => .error e := by
  induction l1 generalizing st with
  | nil => simp [Subscriptions.runEvents]
  | cons e rest ih =>
    simp only [List.cons_append, Subscriptions.runEvents]
    cases Subscriptions.step st e <;> simp [ih]

/-- Claim C1 (amended).  None of the four parse functions checks the tag
stack at end of token stream: whenever the event loop consumes all events
without an error, the parser returns Ok with the accumulated result, even
when the tag stack is still non-empty (truncated document); no
MalformedDocument error is raised. -/
theorem claimC1_truncated_input_returns_ok :
    (∀ evs st, Collections.runEvents Collections.initState evs = .ok st →
       st.tag_stack ≠ [] →
       Collections.parse_collection_information_response evs =
         .ok { collections := st.collection_set }) ∧
    (∀ evs st, Services.runEvents Services.initState evs = .ok st →
       st.tag_stack ≠ [] →
       Services.parse_discovery_response evs = .ok { services := st.services }) ∧
    (∀ evs st, StatusMessages.runEvents StatusMessages.initState evs = .ok st →
       st.tag_stack ≠ [] →
       StatusMessages.parse_status_message evs = .ok st.status_message) ∧
    (∀ evs st, Subscriptions.runEvents Subscriptions.initState evs = .ok st →
       st.tag_stack ≠ [] →
       Subscriptions.parse_subscription_management_response evs =
         .ok st.subscription_response) := by
  refine ⟨?_, ?_, ?_, ?_⟩ <;> intro evs st h _
  · simp [Collections.parse_collection_information_response, h]
  · simp [Services.parse_discovery_response, h]
  · simp [StatusMessages.parse_status_message, h]
  · simp [Subscriptions.parse_subscription_management_response, h]

/-- Claim C1 witness: a document consisting of a lone root start tag
leaves the stack non-empty, yet every parser returns Ok. -/
theorem claimC1_witness :
    Collections.parse_collection_information_response
      [.startElement "Collection_Information_Response" []] = .ok { collections := [] } ∧
    Services.parse_discovery_response
      [.startElement "Discovery_Response" []] = .ok { services := [] } ∧
    StatusMessages.parse_status_message
      [.startElement "Status_Message" []] = .ok StatusMessages.StatusMessage.new_empty ∧
    Subscriptions.parse_subscription_management_response
      [.startElement "Subscription_Management_Response" []] =
      .ok Subscriptions.SubscriptionResponse.new_empty := by
  refine ⟨?_, ?_, ?_, ?_⟩
  · exact claimC1_truncated_input_returns_ok.1
      [.startElement "Collection_Information_Response" []]
      { tag_stack := [.CollectionInformationResponse]
        collection_set := []
        cur_collection := Collections.Collection.new_empty
        cur_service := none
        last_value := "" }
      rfl (by simp)
  · exact claimC1_truncated_input_returns_ok.2.1
      [.startElement "Discovery_Response" []]
      { tag_stack := [.DiscoveryResponse]
        services := []
        cur_service := Services.ServiceInstance.new_empty
        last_value := "" }
      rfl (by simp)
  · exact claimC1_truncated_input_returns_ok.2.2.1
      [.startElement "Status_Message" []]
      { tag_stack := [.StatusMessage]
        status_message := StatusMessages.StatusMessage.new_empty
        last_value := "" }
      rfl (by simp)
  · exact claimC1_truncated_input_returns_ok.2.2.2
      [.startElement "Subscription_Management_Response" []]
      { tag_stack := [.SubscriptionManagementResponse]
        subscription_response := Subscriptions.SubscriptionResponse.new_empty
        cur_poll_instance := none
        last_value := "" }
      rfl (by simp)

/-- Claim C1 counterexample to the claim as stated: each of the four parse
functions, given a token stream that ends while the tag stack still holds
the root tag, returns an Ok result instead of failing with a
MalformedDocument error. -/
theorem claimC1_counterexample :
    Collections.parse_collection_information_response
      [.startElement "Collection_Information_Response" []] = .ok { collections := [] } ∧
    Services.parse_discovery_response
      [.startElement "Discovery_Response" []] = .ok { services := [] } ∧
    StatusMessages.parse_status_message
      [.startElement "Status_Message" []] = .ok StatusMessages.StatusMessage.new_empty ∧
    Subscriptions.parse_subscription_management_response
      [.startElement "Subscription_Management_Response" []] =
      .ok Subscriptions.SubscriptionResponse.new_empty :=
  ⟨rfl, rfl, rfl, rfl⟩

/-- Claim C2 (code bug).  An unparsable service_type makes
parse_discovery_response panic (services.rs line 115 aborts via a panic
with a TODO to return the error instead), while the collection and
subscription parsers return the enum-parse error to the caller. -/
theorem claimC2_unparsable_enum_eval :
    Services.parse_discovery_response
      [.startElement "Discovery_Response" [],
       .startElement "Service_Instance" [("service_type", "BOGUS")]] =
      .panicked "could not parse: BOGUS" ∧
    Collections.parse_collection_information_response
      [.startElement "Collection_Information_Response" [],
       .startElement "Collection" [("collection_type", "BOGUS")]] =
      .error "could not parse: BOGUS" ∧
    Subscriptions.parse_subscription_management_response
      [.startElement "Subscription_Management_Response" [],
       .startElement "Subscription" [("status", "BOGUS")]] =
      .error "could not parse subscription status: BOGUS" :=
  ⟨rfl, rfl, rfl⟩

/-- Claim C3 counterexample to the claim as stated: in
parse_collection_information_response a CDATA event does not overwrite the
text buffer (the event falls into the unhandled default arm), so the value
committed at the Description end tag is the earlier Characters run, not
the last text/CDATA event seen. -/
theorem claimC3_counterexample :
    Collections.parse_collection_information_response
      [.startElement "Collection_Information_Response" [],
       .startElement "Collection" [],
       .startElement "Description" [],
       .characters "first-text",
       .cdata "cdata-text",
       .endElement "Description",
       .endElement "Collection",
       .endElement "Collection_Information_Response"] =
      .ok { collections := [{ Collections.Collection.new_empty with description := "first-text" }] } ∧
    "first-text" ≠ "cdata-text" :=
  ⟨rfl, by decide⟩

/-- Claim C3 (amended).  Text content follows last-value-wins overwrite
semantics for the events a parser handles: a Characters event overwrites
the single shared buffer in all four parsers, a CDATA event overwrites it
in the discovery and status-message parsers but is ignored entirely
(state unchanged) by the collection-information and
subscription-management parsers, and the value committed at an end tag
(Description shown here) is the buffer's current value. -/
theorem claimC3_last_value_wins :
    (∀ st d, Collections.step st (.characters d) = .ok { st with last_value := d }) ∧
    (∀ st d, Collections.step st (.cdata d) = .ok st) ∧
    (∀ st d, Subscriptions.step st (.characters d) = .ok { st with last_value := d }) ∧
    (∀ st d, Subscriptions.step st (.cdata d) = .ok st) ∧
    (∀ st d, Services.step st (.characters d) = .ok { st with last_value := d }) ∧
    (∀ st d, Services.step st (.cdata d) = .ok { st with last_value := d }) ∧
    (∀ st d, StatusMessages.step st (.characters d) = .ok { st with last_value := d }) ∧
    (∀ st d, StatusMessages.step st (.cdata d) = .ok { st with last_value := d }) ∧
    (∀ st ts, st.tag_stack = Collections.CollectionTags.Description :: ts →
       Collections.step st (.endElement "Description") =
         .ok { st with tag_stack := ts,
                       cur_collection := { st.cur_collection with description := st.last_value } }) := by
  refine ⟨fun st d => rfl, fun st d => rfl, fun st d => rfl, fun st d => rfl,
          fun st d => rfl, fun st d => rfl, fun st d => rfl, fun st d => rfl, ?_⟩
  intro st ts h
  simp [Collections.step, Collections.CollectionTags.parse, h]

/-- Claim C3 witness: the commit conjunct applied at a concrete state. -/
theorem claimC3_witness :
    Collections.step
      { tag_stack := [.Description, .Collection, .CollectionInformationResponse]
        collection_set := []
        cur_collection := Collections.Collection.new_empty
        cur_service := none
        last_value := "txt" }
      (.endElement "Description") =
      .ok { tag_stack := [.Collection, .CollectionInformationResponse]
            collection_set := []
            cur_collection := { Collections.Collection.new_empty with description := "txt" }
            cur_service := none
            last_value := "txt" } :=
  claimC3_last_value_wins.2.2.2.2.2.2.2.2 _ _ rfl

/-- Claim C4 counterexample to the claim as stated: attributes on
recognized tags that have no attribute dispatch loop are silently
ignored.  A Discovery_Response root and a Protocol_Binding tag both carry
unknown attributes, yet parsing succeeds. -/
theorem claimC4_counterexample :
    Services.parse_discovery_response
      [.startElement "Discovery_Response" [("bogus_root_attr", "x")],
       .startElement "Service_Instance" [],
       .startElement "Protocol_Binding" [("bogus_attr", "y")],
       .characters "pb",
       .endElement "Protocol_Binding",
       .endElement "Service_Instance",
       .endElement "Discovery_Response"] =
      .ok { services := [{ Services.ServiceInstance.new_empty with protocol_binding := "pb" }] } :=
  rfl

/-- Claim C4 (amended).  Unknown attributes are a hard failure only on
the tags that dispatch attributes - Collection and Content_Binding in the
collection parser, Service_Instance in the discovery parser,
Status_Message in the status parser, and the root and Subscription tags
in the subscription parser; attributes on every other recognized tag are
silently ignored (Protocol_Binding and Description shown here). -/
theorem claimC4_unknown_attribute :
    (∀ st n v, st.tag_stack.length = 1 →
       n ≠ "collection_name" → n ≠ "collection_type" → n ≠ "available" →
       Collections.step st (.startElement "Collection" [(n, v)]) =
         .error ("unrecogized attribute: " ++ n)) ∧
    (∀ st n v, st.tag_stack.length = 2 → n ≠ "binding_id" →
       Collections.step st (.startElement "Content_Binding" [(n, v)]) =
         .error ("unrecogized attribute: " ++ n)) ∧
    (∀ st n v, st.tag_stack.length = 1 →
       n ≠ "service_type" → n ≠ "service_version" → n ≠ "available" →
       Services.step st (.startElement "Service_Instance" [(n, v)]) =
         .err ("unrecogized attribute: " ++ n)) ∧
    (∀ st n v, st.tag_stack.length = 0 →
       n ≠ "message_id" → n ≠ "in_response_to" → n ≠ "status_type" →
       StatusMessages.step st (.startElement "Status_Message" [(n, v)]) =
         .error ("unrecogized attribute: " ++ n)) ∧
    (∀ st n v, st.tag_stack.length = 0 →
       n ≠ "message_id" → n ≠ "in_response_to" → n ≠ "collection_name" →
       n ≠ "xmlns:taxii" → n ≠ "xmlns:taxii_11" → n ≠ "xmlns:tdq" →
       Subscriptions.step st (.startElement "Subscription_Management_Response" [(n, v)]) =
         .error ("unrecogized attribute: " ++ n)) ∧
    (∀ st n v, st.tag_stack.length = 1 → n ≠ "status" →
       Subscriptions.step st (.startElement "Subscription" [(n, v)]) =
         .error ("unrecogized attribute: " ++ n)) ∧
    (∀ st attrs, st.tag_stack.length = 2 →
       Services.step st (.startElement "Protocol_Binding" attrs) =
         .ok { st with tag_stack := .ProtocolBinding :: st.tag_stack }) ∧
    (∀ st attrs, st.tag_stack.length = 2 →
       Collections.step st (.startElement "Description" attrs) =
         .ok { st with tag_stack := .Description :: st.tag_stack }) := by
  refine ⟨?_, ?_, ?_, ?_, ?_, ?_, ?_, ?_⟩
  · intro st n v h h1 h2 h3
    simp [Collections.step, Collections.CollectionTags.parse,
          Collections.CollectionTags.matches_expected_depth, h,
          Collections.collectionAttrsLoop, h1, h2, h3]
  · intro st n v h h1
    simp [Collections.step, Collections.CollectionTags.parse,
          Collections.CollectionTags.matches_expected_depth, h,
          Collections.contentBindingAttrsLoop, h1]
  · intro st n v h h1 h2 h3
    simp [Services.step, h, Services.serviceInstanceAttrsLoop, h1, h2, h3]
  · intro st n v h h1 h2 h3
    simp [StatusMessages.step, h, StatusMessages.statusMessageAttrsLoop, h1, h2, h3]
  · intro st n v h h1 h2 h3 h4 h5 h6
    simp [Subscriptions.step, Subscriptions.SubscriptionManagementResponseTag.parse,
          Subscriptions.SubscriptionManagementResponseTag.matches_expected_depth, h,
          Subscriptions.rootAttrsLoop, h1, h2, h3, h4, h5, h6]
  · intro st n v h h1
    simp [Subscriptions.step, Subscriptions.SubscriptionManagementResponseTag.parse,
          Subscriptions.SubscriptionManagementResponseTag.matches_expected_depth, h,
          Subscriptions.subscriptionAttrsLoop, h1]
  · intro st attrs h
    simp [Services.step, h]
  · intro st attrs h
    simp [Collections.step, Collections.CollectionTags.parse,
          Collections.CollectionTags.matches_expected_depth, h]

/-- Claim C4 witness: the Collection rejection conjunct applied at a
concrete state and attribute. -/
theorem claimC4_witness :
    Collections.step
      { tag_stack := [.CollectionInformationResponse]
        collection_set := []
        cur_collection := Collections.Collection.new_empty
        cur_service := none
        last_value := "" }
      (.startElement "Collection" [("bogus_attr", "x")]) =
      .error ("unrecogized attribute: " ++ "bogus_attr") :=
  claimC4_unknown_attribute.1 _ "bogus_attr" "x" rfl (by decide) (by decide) (by decide)

/-- Claim C5 (code bug).  Parsing a tag's canonical string name returns
that tag for every variant of the collection taxonomy except
ReceivingInboxService, whose to_str arm yields
"Receiving_DataFeed_Service" - a name CollectionTags.parse rejects with
an unknown-tag error (collections.rs line 144, where parse expects
"Receiving_Inbox_Service").  The subscription taxonomy round-trips on
every variant. -/
theorem claimC5_roundtrip_eval :
    Collections.CollectionTags.parse Collections.CollectionTags.CollectionInformationResponse.to_str =
      .ok .CollectionInformationResponse ∧
    Collections.CollectionTags.parse Collections.CollectionTags.Collection.to_str = .ok .Collection ∧
    Collections.CollectionTags.parse Collections.CollectionTags.Description.to_str = .ok .Description ∧
    Collections.CollectionTags.parse Collections.CollectionTags.CollectionVolume.to_str =
      .ok .CollectionVolume ∧
    Collections.CollectionTags.parse Collections.CollectionTags.ContentBinding.to_str =
      .ok .ContentBinding ∧
    Collections.CollectionTags.parse Collections.CollectionTags.MessageBinding.to_str =
      .ok .MessageBinding ∧
    Collections.CollectionTags.parse Collections.CollectionTags.Address.to_str = .ok .Address ∧
    Collections.CollectionTags.parse Collections.CollectionTags.ProtocolBinding.to_str =
      .ok .ProtocolBinding ∧
    Collections.CollectionTags.parse Collections.CollectionTags.PollingService.to_str =
      .ok .PollingService ∧
    Collections.CollectionTags.parse Collections.CollectionTags.SubscriptionService.to_str =
      .ok .SubscriptionService ∧
    Collections.CollectionTags.ReceivingInboxService.to_str = "Receiving_DataFeed_Service" ∧
    Collections.CollectionTags.parse Collections.CollectionTags.ReceivingInboxService.to_str =
      .error ("could not parse tag: " ++ "Receiving_DataFeed_Service") ∧
    (∀ t : Subscriptions.SubscriptionManagementResponseTag,
       Subscriptions.SubscriptionManagementResponseTag.parse t.to_str = .ok t) := by
  refine ⟨rfl, rfl, rfl, rfl, rfl, rfl, rfl, rfl, rfl, rfl, rfl, rfl, ?_⟩
  intro t
  cases t <;> rfl

/-- Claim C7.  In the two taxonomy-driven parsers, a recognized start tag
whose declared depth does not match the current stack depth aborts the
whole parse with the unexpected-depth error, wherever the tag occurs in
the document; no result is returned. -/
theorem claimC7_unexpected_depth :
    (∀ evs st name attrs rest tag,
       Collections.runEvents Collections.initState evs = .ok st →
       Collections.CollectionTags.parse name = .ok tag →
       tag.matches_expected_depth st.tag_stack.length = false →
       Collections.parse_collection_information_response
           (evs ++ .startElement name attrs :: rest) =
         .error ("tag at unexpected depth of " ++ toString st.tag_stack.length ++ ": " ++ name)) ∧
    (∀ evs st name attrs rest tag,
       Subscriptions.runEvents Subscriptions.initState evs = .ok st →
       Subscriptions.SubscriptionManagementResponseTag.parse name = .ok tag →
       tag.matches_expected_depth st.tag_stack.length = false →
       Subscriptions.parse_subscription_management_response
           (evs ++ .startElement name attrs :: rest) =
         .error ("tag at unexpected depth of " ++ toString st.tag_stack.length ++
                 " expected: " ++ name)) := by
  constructor
  · intro evs st name attrs rest tag h hp hd
    simp [Collections.parse_collection_information_response, coll_runEvents_append, h,
          Collections.runEvents, Collections.step, hp, hd]
  · intro evs st name attrs rest tag h hp hd
    simp [Subscriptions.parse_subscription_management_response, sub_runEvents_append, h,
          Subscriptions.runEvents, Subscriptions.step, hp, hd]

/-- Claim C7 witness: a Collection tag at depth 0 and an Address tag at
depth 1 are rejected. -/
theorem claimC7_witness :
    Collections.parse_collection_information_response
      [.startElement "Collection" []] =
      .error ("tag at unexpected depth of " ++ toString 0 ++ ": " ++ "Collection") ∧
    Subscriptions.parse_subscription_management_response
      [.startElement "Subscription_Management_Response" [],
       .startElement "Address" []] =
      .error ("tag at unexpected depth of " ++ toString 1 ++ " expected: " ++ "Address") := by
  constructor
  · exact claimC7_unexpected_depth.1 [] Collections.initState "Collection" [] [] .Collection
      rfl rfl rfl
  · exact claimC7_unexpected_depth.2
      [.startElement "Subscription_Management_Response" []]
      { tag_stack := [.SubscriptionManagementResponse]
        subscription_response := Subscriptions.SubscriptionResponse.new_empty
        cur_poll_instance := none
        last_value := "" }
      "Address" [] [] .Address rfl rfl rfl

/-- Claim C8.  At every end-element event the popped stack entry must
exist and correspond to the parsed end tag: an empty stack or a
mismatched top aborts the parse with a malformed-document error (the
discovery and status parsers report an empty stack as an unexpected end
tag), and no result is returned. -/
theorem claimC8_end_tag_mismatch :
    (∀ evs st name rest end_tag,
       Collections.runEvents Collections.initState evs = .ok st →
       Collections.CollectionTags.parse name = .ok end_tag →
       st.tag_stack.head? ≠ some end_tag →
       Collections.parse_collection_information_response (evs ++ .endElement name :: rest) =
         .error "malformed XML response") ∧
    (∀ evs st name rest end_tag,
       Subscriptions.runEvents Subscriptions.initState evs = .ok st →
       Subscriptions.SubscriptionManagementResponseTag.parse name = .ok end_tag →
       st.tag_stack.head? ≠ some end_tag →
       Subscriptions.parse_subscription_management_response (evs ++ .endElement name :: rest) =
         .error "malformed XML response") ∧
    (∀ evs st name rest,
       Services.runEvents Services.initState evs = .ok st →
       st.tag_stack = [] →
       Services.parse_discovery_response (evs ++ .endElement name :: rest) =
         .err ("unexpected end tag: " ++ name)) ∧
    (∀ evs st name rest t ts,
       Services.runEvents Services.initState evs = .ok st →
       st.tag_stack = t :: ts →
       name ≠ t.tag_name →
       Services.parse_discovery_response (evs ++ .endElement name :: rest) =
         .err "malformed XML response") ∧
    (∀ evs st name rest,
       StatusMessages.runEvents StatusMessages.initState evs = .ok st →
       st.tag_stack = [] →
       StatusMessages.parse_status_message (evs ++ .endElement name :: rest) =
         .error ("unexpected end tag: " ++ name)) ∧
    (∀ evs st name rest t ts,
       StatusMessages.runEvents StatusMessages.initState evs = .ok st →
       st.tag_stack = t :: ts →
       name ≠ t.tag_name →
       StatusMessages.parse_status_message (evs ++ .endElement name :: rest) =
         .error "malformed XML response") := by
  refine ⟨?_, ?_, ?_, ?_, ?_, ?_⟩
  · intro evs st name rest end_tag h hp hq
    have hrun : Collections.runEvents st (.endElement name :: rest) =
        .error "malformed XML response" := by
      cases hst : st.tag_stack with
      | nil => simp [Collections.runEvents, Collections.step, hp, hst]
      | cons t ts =>
        have ht : ¬ t = end_tag := fun he => hq (by rw [hst, he]; rfl)
        simp [Collections.runEvents, Collections.step, hp, hst, ht]
    simp [Collections.parse_collection_information_response, coll_runEvents_append, h, hrun]
  · intro evs st name rest end_tag h hp hq
    have hrun : Subscriptions.runEvents st (.endElement name :: rest) =
        .error "malformed XML response" := by
      cases hst : st.tag_stack with
      | nil => simp [Subscriptions.runEvents, Subscriptions.step, hp, hst]
      | cons t ts =>
        have ht : ¬ t = end_tag := fun he => hq (by rw [hst, he]; rfl)
        simp [Subscriptions.runEvents, Subscriptions.step, hp, hst, ht]
    simp [Subscriptions.parse_subscription_management_response, sub_runEvents_append, h, hrun]
  · intro evs st name rest h hst
    simp [Services.parse_discovery_response, disc_runEvents_append, h,
          Services.runEvents, Services.step, hst]
  · intro evs st name rest t ts h hst hne
    simp [Services.parse_discovery_response, disc_runEvents_append, h,
          Services.runEvents, Services.step, hst, hne]
  · intro evs st name rest h hst
    simp [StatusMessages.parse_status_message, status_runEvents_append, h,
          StatusMessages.runEvents, StatusMessages.step, hst]
  · intro evs st name rest t ts h hst hne
    simp [StatusMessages.parse_status_message, status_runEvents_append, h,
          StatusMessages.runEvents, StatusMessages.step, hst, hne]

/-- Claim C8 witness: an end tag on an empty stack and an end tag that
does not match the open tag are both rejected, in each parser family. -/
theorem claimC8_witness :
    Collections.parse_collection_information_response [.endElement "Collection"] =
      .error "malformed XML response" ∧
    Subscriptions.parse_subscription_management_response
      [.startElement "Subscription_Management_Response" [],
       .endElement "Subscription"] = .error "malformed XML response" ∧
    Services.parse_discovery_response [.endElement "Message"] =
      .err ("unexpected end tag: " ++ "Message") ∧
    Services.parse_discovery_response
      [.startElement "Discovery_Response" [], .endElement "Message"] =
      .err "malformed XML response" ∧
    StatusMessages.parse_status_message [.endElement "Message"] =
      .error ("unexpected end tag: " ++ "Message") ∧
    StatusMessages.parse_status_message
      [.startElement "Status_Message" [], .endElement "Message"] =
      .error "malformed XML response" := by
  refine ⟨?_, ?_, ?_, ?_, ?_, ?_⟩
  · exact claimC8_end_tag_mismatch.1 [] Collections.initState "Collection" [] .Collection
      rfl rfl (by simp [Collections.initState])
  · exact claimC8_end_tag_mismatch.2.1
      [.startElement "Subscription_Management_Response" []]
      { tag_stack := [.SubscriptionManagementResponse]
        subscription_response := Subscriptions.SubscriptionResponse.new_empty
        cur_poll_instance := none
        last_value := "" }
      "Subscription" [] .Subscription rfl rfl (by simp)
  · exact claimC8_end_tag_mismatch.2.2.1 [] Services.initState "Message" [] rfl rfl
  · exact claimC8_end_tag_mismatch.2.2.2.1
      [.startElement "Discovery_Response" []]
      { tag_stack := [.DiscoveryResponse]
        services := []
        cur_service := Services.ServiceInstance.new_empty
        last_value := "" }
      "Message" [] .DiscoveryResponse [] rfl rfl (by decide)
  · exact claimC8_end_tag_mismatch.2.2.2.2.1 [] StatusMessages.initState "Message" [] rfl rfl
  · exact claimC8_end_tag_mismatch.2.2.2.2.2
      [.startElement "Status_Message" []]
      { tag_stack := [.StatusMessage]
        status_message := StatusMessages.StatusMessage.new_empty
        last_value := "" }
      "Message" [] .StatusMessage [] rfl rfl (by decide)

/-- Claim C9.  The available attribute never makes parsing fail: for every
string value the Collection and Service_Instance handlers succeed and set
the availability flag to the comparison of the lowercased value with
"true", which is false for every other value (empty string and arbitrary
text shown). -/
theorem claimC9_available_attr :
    (∀ st v, st.tag_stack.length = 1 →
       Collections.step st (.startElement "Collection" [("available", v)]) =
         .ok { st with tag_stack := .Collection :: st.tag_stack,
                       cur_collection :=
                         { st.cur_collection with available := rust_to_lowercase v == "true" } }) ∧
    (∀ st v, st.tag_stack.length = 1 →
       Services.step st (.startElement "Service_Instance" [("available", v)]) =
         .ok { st with tag_stack := .ServiceInstance :: st.tag_stack,
                       cur_service :=
                         { st.cur_service with available := rust_to_lowercase v == "true" } }) ∧
    (rust_to_lowercase "TrUe" == "true") = true ∧
    (rust_to_lowercase "true" == "true") = true ∧
    (rust_to_lowercase "" == "true") = false ∧
    (rust_to_lowercase "arbitrary text" == "true") = false := by
  refine ⟨?_, ?_, by decide, by decide, by decide, by decide⟩
  · intro st v h
    simp [Collections.step, Collections.CollectionTags.parse,
          Collections.CollectionTags.matches_expected_depth, h,
          Collections.collectionAttrsLoop]
  · intro st v h
    simp [Services.step, h, Services.serviceInstanceAttrsLoop]

/-- Claim C9 witness: the Collection conjunct applied at a concrete state
with a non-boolean attribute value. -/
theorem claimC9_witness :
    Collections.step
      { tag_stack := [.CollectionInformationResponse]
        collection_set := []
        cur_collection := Collections.Collection.new_empty
        cur_service := none
        last_value := "" }
      (.startElement "Collection" [("available", "not-a-bool")]) =
      .ok { tag_stack := [.Collection, .CollectionInformationResponse]
            collection_set := []
            cur_collection :=
              { Collections.Collection.new_empty with
                  available := rust_to_lowercase "not-a-bool" == "true" }
            cur_service := none
            last_value := "" } :=
  claimC9_available_attr.1 _ "not-a-bool" rfl

/-- Whether a writer event list contains a Subscription_ID start element. -/
def hasSubscriptionID (evs : List WXmlEvent) : Bool :=
  evs.any fun e =>
    match e with
    | .startElement n _ => n == "taxii_11:Subscription_ID"
    | _ => false

theorem hasSubscriptionID_append (l1 l2 : List WXmlEvent) :
    hasSubscriptionID (l1 ++ l2) = (hasSubscriptionID l1 || hasSubscriptionID l2) := by
  simp [hasSubscriptionID]

theorem hasSubscriptionID_contentBinding (cb : Subscriptions.ContentBinding) :
    hasSubscriptionID (Subscriptions.contentBindingEvents cb) = false := by
  cases h : cb.subtype_id
  · simp only [Subscriptions.contentBindingEvents, h]
    rfl
  · simp only [Subscriptions.contentBindingEvents, h]
    rfl

theorem hasSubscriptionID_flatten (cbs : List Subscriptions.ContentBinding) :
    hasSubscriptionID ((cbs.map Subscriptions.contentBindingEvents).flatten) = false := by
  induction cbs with
  | nil => rfl
  | cons cb rest ih =>
    simp [List.map_cons, List.flatten_cons, hasSubscriptionID_append,
          hasSubscriptionID_contentBinding, ih]

theorem hasSubscriptionID_query (sp : Subscriptions.SubscriptionParameters) :
    hasSubscriptionID (Subscriptions.queryEvents sp) = false := by
  cases hq : sp.query
  · simp only [Subscriptions.queryEvents, hq]
    rfl
  · cases hf : sp.query_format_id
    · simp only [Subscriptions.queryEvents, hq, hf]
      rfl
    · simp only [Subscriptions.queryEvents, hq, hf]
      rfl

theorem hasSubscriptionID_sp (sp : Subscriptions.SubscriptionParameters) :
    hasSubscriptionID (Subscriptions.subscriptionParametersEvents sp) = false := by
  simp only [Subscriptions.subscriptionParametersEvents, hasSubscriptionID_append,
             hasSubscriptionID_flatten, hasSubscriptionID_query]
  rfl

theorem hasSubscriptionID_pp (pp : Subscriptions.PushParameters) :
    hasSubscriptionID (Subscriptions.pushParametersEvents pp) = false := by
  simp only [Subscriptions.pushParametersEvents, hasSubscriptionID_append]
  rfl

/-- Claim C6.  Composing a subscribe request with a supplied subscription
id fails with the invalid-parameter-combination error and returns no
body; with no id the same call succeeds and its body contains no
Subscription_ID child; for every non-subscribe action the call succeeds
and a Subscription_ID child is emitted exactly when an id was supplied. -/
theorem claimC6_subscribe_id_contract :
    (∀ (ver : Version) (ns msg_id cn id : String) sp pp,
       ver.xml_namespace = .ok ns →
       Subscriptions.create_subscribe_request_body ver msg_id .Subscribe cn (some id) sp pp =
         .err "unexpected subscription ID provided with subscribe action") ∧
    (∀ (ver : Version) (ns msg_id cn : String) sp pp,
       ver.xml_namespace = .ok ns →
       ∃ evs,
         Subscriptions.create_subscribe_request_body ver msg_id .Subscribe cn none sp pp =
           .ok evs ∧
         hasSubscriptionID evs = false) ∧
    (∀ (ver : Version) (ns msg_id cn : String) action subscription_id sp pp,
       ver.xml_namespace = .ok ns →
       action ≠ Subscriptions.SubscribeAction.Subscribe →
       ∃ evs,
         Subscriptions.create_subscribe_request_body ver msg_id action cn subscription_id sp pp =
           .ok evs ∧
         hasSubscriptionID evs = subscription_id.isSome) := by
  refine ⟨?_, ?_, ?_⟩
  · intro ver ns msg_id cn id sp pp h
    simp [Subscriptions.create_subscribe_request_body, h]
  · intro ver ns msg_id cn sp pp h
    simp only [Subscriptions.create_subscribe_request_body, h]
    cases sp with
    | none =>
      cases pp with
      | none => exact ⟨_, rfl, rfl⟩
      | some p =>
        refine ⟨_, rfl, ?_⟩
        simp only [ite_true, hasSubscriptionID_append, hasSubscriptionID_pp]
        rfl
    | some s =>
      cases pp with
      | none =>
        refine ⟨_, rfl, ?_⟩
        simp only [ite_true, hasSubscriptionID_append, hasSubscriptionID_sp]
        rfl
      | some p =>
        refine ⟨_, rfl, ?_⟩
        simp only [ite_true, hasSubscriptionID_append, hasSubscriptionID_sp, hasSubscriptionID_pp]
        rfl
  · intro ver ns msg_id cn action subscription_id sp pp h hne
    simp only [Subscriptions.create_subscribe_request_body, h]
    cases subscription_id with
    | none =>
      refine ⟨[WXmlEvent.startElement "taxii_11:Subscription_Management_Request"
                 [("xmlns:taxii_11", ns), ("action", action.to_str), ("message_id", msg_id),
                  ("collection_name", cn)], WXmlEvent.endElement], ?_, ?_⟩
      · simp [hne]
      · rfl
    | some id =>
      refine ⟨[WXmlEvent.startElement "taxii_11:Subscription_Management_Request"
                 [("xmlns:taxii_11", ns), ("action", action.to_str), ("message_id", msg_id),
                  ("collection_name", cn)]] ++
              write_xml_tag_with_data "taxii_11:Subscription_ID" id ++
              [WXmlEvent.endElement], ?_, ?_⟩
      · simp [hne]
      · rfl

/-- Claim C6 witness: the contract applied at version 1.1 with concrete
parameters (the same shape the repository's own composer test uses). -/
theorem claimC6_witness :
    Subscriptions.create_subscribe_request_body .V11 "message-id-1" .Subscribe
      "collection-name-1" (some "subscription-id-1") none none =
      .err "unexpected subscription ID provided with subscribe action" ∧
    (∃ evs, Subscriptions.create_subscribe_request_body .V11 "message-id-1" .Subscribe
        "collection-name-1" none none none = .ok evs ∧ hasSubscriptionID evs = false) ∧
    (∃ evs, Subscriptions.create_subscribe_request_body .V11 "message-id-1" .Unsubscribe
        "collection-name-1" (some "subscription-id-1") none none = .ok evs ∧
        hasSubscriptionID evs = (some "subscription-id-1").isSome) := by
  refine ⟨?_, ?_, ?_⟩
  · exact claimC6_subscribe_id_contract.1 .V11 NAMESPACE_11 "message-id-1" "collection-name-1"
      "subscription-id-1" none none rfl
  · exact claimC6_subscribe_id_contract.2.1 .V11 NAMESPACE_11 "message-id-1" "collection-name-1"
      none none rfl
  · exact claimC6_subscribe_id_contract.2.2 .V11 NAMESPACE_11 "message-id-1" "collection-name-1"
      .Unsubscribe (some "subscription-id-1") none none rfl (by decide)

/-- Canonical wire names of subscription statuses; the left inverse of
SubscriptionStatus.parse, used to quantify Claim C10 over every status. -/
def subscriptionStatusName : Subscriptions.SubscriptionStatus → String
  | .Active => "ACTIVE"
  | .Paused => "PAUSED"
  | .Unsubscribed => "UNSUBSCRIBED"

/-- Claim C10.  A document with two Subscription elements parses without
error: the second element's status, Subscription_ID and Response_Type
overwrite the first's, while the poll instances of both elements
accumulate, in document order, into the single result subscription's
poll-instance list. -/
theorem claimC10_multiple_subscriptions
    (s1 s2 : Subscriptions.SubscriptionStatus) (rt1 rt2 : Subscriptions.ResponseType)
    (mid irt cn id1 id2 addr1 addr2 : String) :
    Subscriptions.parse_subscription_management_response
      [.startElement "Subscription_Management_Response"
         [("message_id", mid), ("in_response_to", irt), ("collection_name", cn)],
       .startElement "Subscription" [("status", subscriptionStatusName s1)],
       .startElement "Subscription_ID" [], .characters id1, .endElement "Subscription_ID",
       .startElement "Subscription_Parameters" [],
       .startElement "Response_Type" [], .characters rt1.to_str, .endElement "Response_Type",
       .endElement "Subscription_Parameters",
       .startElement "Poll_Instance" [],
       .startElement "Address" [], .characters addr1, .endElement "Address",
       .endElement "Poll_Instance",
       .endElement "Subscription",
       .startElement "Subscription" [("status", subscriptionStatusName s2)],
       .startElement "Subscription_ID" [], .characters id2, .endElement "Subscription_ID",
       .startElement "Subscription_Parameters" [],
       .startElement "Response_Type" [], .characters rt2.to_str, .endElement "Response_Type",
       .endElement "Subscription_Parameters",
       .startElement "Poll_Instance" [],
       .startElement "Address" [], .characters addr2, .endElement "Address",
       .endElement "Poll_Instance",
       .endElement "Subscription",
       .endElement "Subscription_Management_Response"] =
    .ok { message_id := mid
          in_response_to := irt
          subscription :=
            { status := s2
              id := id2
              response_type := rt2
              poll_instances :=
                [{ protocol_binding := "", address := addr1, message_bindings := [] },
                 { protocol_binding := "", address := addr2, message_bindings := [] }]
              collection_name := cn } } := by
  cases s1 <;> cases s2 <;> cases rt1 <;> cases rt2 <;> rfl
